import Mathlib

/-!
Verification of the OS-disk expand/flatten mapping helpers and the
virtual-machine ID parsing/validation helpers from
`azurerm/internal/services/compute/virtual_machine.go`.

Go's `interface{}` attribute-bag values are embedded as the dynamic type
`GoValue`; Go maps `map[string]interface{}` become association lists; Go
pointers become `Option`; a Go panic (failed type assertion, index out of
range) is embedded as `none` of an `Option`-valued result.
-/

namespace AzureVM

/-- Dynamic value of the Terraform attribute bag (Go `interface{}`). -/
inductive GoValue where
  | str : String → GoValue
  | int : Int → GoValue
  | bool : Bool → GoValue
  | list : List GoValue → GoValue
  | map : List (String × GoValue) → GoValue
deriving Repr

/-- Go type assertion `v.(string)`: yields `none` (panic) on any other shape. -/
def asString : GoValue → Option String
  | GoValue.str s => some s
  | _ => none

/-- Go type assertion `v.(int)`. -/
def asInt : GoValue → Option Int
  | GoValue.int n => some n
  | _ => none

/-- Go type assertion `v.(bool)`. -/
def asBool : GoValue → Option Bool
  | GoValue.bool b => some b
  | _ => none

/-- Go type assertion `v.([]interface\x7b\x7d)`. -/
def asList : GoValue → Option (List GoValue)
  | GoValue.list l => some l
  | _ => none

/-- Go type assertion `v.(map[string]interface\x7b\x7d)`. -/
def asMap : GoValue → Option (List (String × GoValue))
  | GoValue.map m => some m
  | _ => none

/-- Go map index `m[k]` followed by a type assertion: a missing key gives the
nil interface, on which any assertion panics, hence the `Option.bind`. -/
def lookupThen (m : List (String × GoValue)) (k : String)
    (assert : GoValue → Option α) : Option α :=
  (m.lookup k).bind assert

/-- `compute.DiffDiskSettings` from the Azure SDK (its `Option` field is a
string-typed enum). -/
structure DiffDiskSettings where
  Option : String
deriving Repr, DecidableEq

/-- `compute.DiskEncryptionSetParameters`. -/
structure DiskEncryptionSetParameters where
  ID : Option String
deriving Repr, DecidableEq

/-- `compute.ManagedDiskParameters` (the fields this file touches). -/
structure ManagedDiskParameters where
  StorageAccountType : String
  DiskEncryptionSet : Option DiskEncryptionSetParameters
deriving Repr, DecidableEq

/-- `compute.OSDisk` (the fields this file touches); pointer fields are
`Option`, string-typed SDK enums are `String`. `DiskSizeGB` is the value of
the `*int32`. -/
structure OSDisk where
  Caching : String
  ManagedDisk : Option ManagedDiskParameters
  WriteAcceleratorEnabled : Option Bool
  CreateOption : String
  OsType : String
  DiskSizeGB : Option Int
  DiffDiskSettings : Option DiffDiskSettings
  Name : Option String
deriving Repr, DecidableEq

/-- Go's `int32(n)` conversion on an `int`: wrap into `[-2^31, 2^31)`. -/
def toInt32 (n : Int) : Int := (n + 2 ^ 31) % 2 ^ 32 - 2 ^ 31

/-- `ExpandVirtualMachineOSDisk`: `none` is a Go panic (empty input list or a
failed type assertion). -/
def ExpandVirtualMachineOSDisk (input : List GoValue) (osType : String) :
    Option OSDisk := do
  let raw ← (input.head?).bind asMap
  let caching ← lookupThen raw "caching" asString
  let storageAccountType ← lookupThen raw "storage_account_type" asString
  let writeAcceleratorEnabled ← lookupThen raw "write_accelerator_enabled" asBool
  let osDiskSize ← lookupThen raw "disk_size_gb" asInt
  let diffDiskSettingsRaw ← lookupThen raw "diff_disk_settings" asList
  let diffDiskSettings : Option DiffDiskSettings ←
    match diffDiskSettingsRaw with
    | [] => pure none
    | d :: _ => do
      let diffDiskRaw ← asMap d
      let opt ← lookupThen diffDiskRaw "option" asString
      pure (some { Option := opt })
  let diskEncryptionSetId ← lookupThen raw "disk_encryption_set_id" asString
  let name ← lookupThen raw "name" asString
  pure {
    Caching := caching
    ManagedDisk := some {
      StorageAccountType := storageAccountType
      DiskEncryptionSet :=
        if diskEncryptionSetId ≠ "" then
          some { ID := some diskEncryptionSetId }
        else none }
    WriteAcceleratorEnabled := some writeAcceleratorEnabled
    CreateOption := "FromImage"
    OsType := osType
    DiskSizeGB := if osDiskSize > 0 then some (toInt32 osDiskSize) else none
    DiffDiskSettings := diffDiskSettings
    Name := if name ≠ "" then some name else none }

/-- `FlattenVirtualMachineOSDisk`: the argument is the `*compute.OSDisk`,
`none` being the nil pointer. -/
def FlattenVirtualMachineOSDisk (input : Option OSDisk) : List GoValue :=
  match input with
  | none => []
  | some input =>
    let diffDiskSettings : List GoValue :=
      match input.DiffDiskSettings with
      | some dds => [GoValue.map [("option", GoValue.str dds.Option)]]
      | none => []
    let diskSizeGb : Int :=
      match input.DiskSizeGB with
      | some v => if v ≠ 0 then v else 0
      | none => 0
    let name : String :=
      match input.Name with
      | some n => n
      | none => ""
    let storageAccountType : String :=
      match input.ManagedDisk with
      | some md => md.StorageAccountType
      | none => ""
    let diskEncryptionSetId : String :=
      match input.ManagedDisk with
      | some md =>
        match md.DiskEncryptionSet with
        | some des =>
          match des.ID with
          | some i => i
          | none => ""
        | none => ""
      | none => ""
    let writeAcceleratorEnabled : Bool :=
      match input.WriteAcceleratorEnabled with
      | some b => b
      | none => false
    [GoValue.map [
      ("caching", GoValue.str input.Caching),
      ("disk_size_gb", GoValue.int diskSizeGb),
      ("diff_disk_settings", GoValue.list diffDiskSettings),
      ("disk_encryption_set_id", GoValue.str diskEncryptionSetId),
      ("name", GoValue.str name),
      ("storage_account_type", GoValue.str storageAccountType),
      ("write_accelerator_enabled", GoValue.bool writeAcceleratorEnabled)]]

/-- `compute.NetworkInterfaceReference` (the field this file touches). -/
structure NetworkInterfaceReference where
  ID : Option String
deriving Repr, DecidableEq

/-- `expandVirtualMachineNetworkInterfaceIDs`: the loop appends one
reference per element, asserting each element to a string; `none` is a Go
panic (a non-string element). -/
def expandVirtualMachineNetworkInterfaceIDs :
    List GoValue → Option (List NetworkInterfaceReference)
  | [] => some []
  | v :: rest =>
    (asString v).bind fun s =>
      (expandVirtualMachineNetworkInterfaceIDs rest).map
        fun out => { ID := some s } :: out

/-- `flattenVirtualMachineNetworkInterfaceIDs`: the argument is the
`*[]compute.NetworkInterfaceReference`, `none` being the nil pointer; the
loop skips references whose `ID` pointer is nil. -/
def flattenVirtualMachineNetworkInterfaceIDs
    (input : Option (List NetworkInterfaceReference)) : List GoValue :=
  match input with
  | none => []
  | some l => l.filterMap (fun v => v.ID.map GoValue.str)

/-- Segments of an identifier path: split on every slash character, then drop
the single leading empty segment produced by the leading slash. -/
def splitSlashAux : List Char → List Char → List String
  | [], acc => [String.mk acc.reverse]
  | c :: rest, acc =>
    if c = '/' then String.mk acc.reverse :: splitSlashAux rest []
    else splitSlashAux rest (c :: acc)

/-- Modelled from the spec: the identifier path format
`/.../resourceGroups/rg/.../virtualMachines/name/...` is a slash-delimited
sequence of opaque segments; this lists them, dropping the empty segment the
leading slash produces. -/
def pathSegments (input : String) : List String :=
  match splitSlashAux input.data [] with
  | "" :: rest => rest
  | l => l

/-- Pair up consecutive segments into key/value pairs; an odd-length list is
a malformed path. -/
def pairUp : List String → Option (List (String × String))
  | [] => some []
  | [_] => none
  | k :: v :: rest => (pairUp rest).map (fun ps => (k, v) :: ps)

/-- Modelled from the spec: `azure.ResourceID` as this file uses it — the
parsed named segments plus the extracted resource-group name. The helper
`azure.ParseAzureResourceID` and its methods are owned outside this excerpt. -/
structure ResourceID where
  ResourceGroup : String
  Path : List (String × String)
deriving Repr, DecidableEq

/-- Modelled from the spec: `azure.ParseAzureResourceID` splits the resource
path into named segments (key/value pairs) and records the resource-group
name found under the `resourceGroups` key, rejecting a malformed path. -/
def ParseAzureResourceID (input : String) : Except String ResourceID :=
  match pairUp (pathSegments input) with
  | none => Except.error ("malformed resource id path " ++ input)
  | some pairs =>
    Except.ok { ResourceGroup := (pairs.lookup "resourceGroups").getD ""
                Path := pairs }

/-- Modelled from the spec: `(*azure.ResourceID).PopSegment` extracts one
required named segment; the identifier path must contain a non-empty segment
under the known key, else an error. -/
def PopSegment (id : ResourceID) (key : String) : Except String String :=
  match id.Path.lookup key with
  | some v => if v = "" then Except.error ("empty segment " ++ key) else Except.ok v
  | none => Except.error ("missing segment " ++ key)

/-- Modelled from the spec: `(*azure.ResourceID).ValidateNoEmptySegments`
rejects the source identifier if any of its path segments is empty. -/
def ValidateNoEmptySegments (input : String) : Except String Unit :=
  if "" ∈ pathSegments input then
    Except.error ("empty segment in " ++ input)
  else Except.ok ()

/-- `VirtualMachineID`. -/
structure VirtualMachineID where
  ResourceGroup : String
  Name : String
deriving Repr, DecidableEq

/-- `ParseVirtualMachineID`: parse the resource id, pop the
`virtualMachines` segment, then validate that no segment is empty. -/
def ParseVirtualMachineID (input : String) : Except String VirtualMachineID :=
  match ParseAzureResourceID input with
  | Except.error e =>
    Except.error ("[ERROR] Unable to parse Virtual Machine ID " ++ input ++ ": " ++ e)
  | Except.ok id =>
    match PopSegment id "virtualMachines" with
    | Except.error e => Except.error e
    | Except.ok name =>
      match ValidateNoEmptySegments input with
      | Except.error e => Except.error e
      | Except.ok _ =>
        Except.ok { ResourceGroup := id.ResourceGroup, Name := name }

/-- `ValidateVirtualMachineID`: the schema validation callback, returning the
(warnings, errors) pair. -/
def ValidateVirtualMachineID (i : GoValue) (k : String) :
    List String × List String :=
  match i with
  | GoValue.str v =>
    match ParseVirtualMachineID v with
    | Except.error e =>
      ([], ["Can not parse " ++ k ++ " as a resource id: " ++ e])
    | Except.ok _ => ([], [])
  | _ => ([], ["expected type of " ++ k ++ " to be string"])

/-- Extract a field of the single flattened block, when there is one. -/
def flatLookup (l : List GoValue) (k : String) : Option GoValue :=
  match l with
  | [GoValue.map m] => m.lookup k
  | _ => none

end AzureVM

namespace AzureVM

/-! ### Helper lemmas -/

/-- `int32(n)` is the identity on values already in the 32-bit range. -/
theorem toInt32_eq_self (n : Int) (h0 : -(2 ^ 31) ≤ n) (h1 : n < 2 ^ 31) :
    toInt32 n = n := by
  unfold toInt32
  omega

/-- Evaluating `ExpandVirtualMachineOSDisk` on a well-typed single-block bag. -/
theorem expand_osdisk_eq (m : List (String × GoValue))
    (osType c sat des nm : String) (dsz : Int) (wae : Bool)
    (dds : List GoValue) (ddisk : Option DiffDiskSettings)
    (hc : m.lookup "caching" = some (GoValue.str c))
    (hs : m.lookup "storage_account_type" = some (GoValue.str sat))
    (hw : m.lookup "write_accelerator_enabled" = some (GoValue.bool wae))
    (hd : m.lookup "disk_size_gb" = some (GoValue.int dsz))
    (hl : m.lookup "diff_disk_settings" = some (GoValue.list dds))
    (he : m.lookup "disk_encryption_set_id" = some (GoValue.str des))
    (hn : m.lookup "name" = some (GoValue.str nm))
    (hdds : (dds = [] ∧ ddisk = none) ∨
      ∃ dm rest o, dds = GoValue.map dm :: rest ∧
        dm.lookup "option" = some (GoValue.str o) ∧ ddisk = some { Option := o }) :
    ExpandVirtualMachineOSDisk [GoValue.map m] osType = some
      { Caching := c
        ManagedDisk := some
          { StorageAccountType := sat
            DiskEncryptionSet :=
              if des ≠ "" then some { ID := some des } else none }
        WriteAcceleratorEnabled := some wae
        CreateOption := "FromImage"
        OsType := osType
        DiskSizeGB := if dsz > 0 then some (toInt32 dsz) else none
        DiffDiskSettings := ddisk
        Name := if nm ≠ "" then some nm else none } := by
  rcases hdds with ⟨rfl, rfl⟩ | ⟨dm, rest, o, rfl, hdm, rfl⟩
  · simp only [ExpandVirtualMachineOSDisk, lookupThen, List.head?_cons,
      Option.some_bind, Option.bind_eq_bind, Option.pure_def, hc, hs, hw, hd,
      hl, he, hn, asString, asInt, asBool, asList, asMap]
  · simp only [ExpandVirtualMachineOSDisk, lookupThen, List.head?_cons,
      Option.some_bind, Option.bind_eq_bind, Option.pure_def, hc, hs, hw, hd,
      hl, he, hn, hdm, asString, asInt, asBool, asList, asMap]

end AzureVM

namespace AzureVM

/-- Evaluating `FlattenVirtualMachineOSDisk` on the disk shape that
`ExpandVirtualMachineOSDisk` produces, with the size in the schema range. -/
theorem flatten_expanded_osdisk (c sat des nm osType : String) (dsz : Int)
    (wae : Bool) (ddisk : Option DiffDiskSettings)
    (h0 : 0 ≤ dsz) (h1 : dsz ≤ 1023) :
    FlattenVirtualMachineOSDisk (some
      { Caching := c
        ManagedDisk := some
          { StorageAccountType := sat
            DiskEncryptionSet :=
              if des ≠ "" then some { ID := some des } else none }
        WriteAcceleratorEnabled := some wae
        CreateOption := "FromImage"
        OsType := osType
        DiskSizeGB := if dsz > 0 then some (toInt32 dsz) else none
        DiffDiskSettings := ddisk
        Name := if nm ≠ "" then some nm else none }) =
      [GoValue.map [
        ("caching", GoValue.str c),
        ("disk_size_gb", GoValue.int dsz),
        ("diff_disk_settings", GoValue.list
          (match ddisk with
           | some dd => [GoValue.map [("option", GoValue.str dd.Option)]]
           | none => [])),
        ("disk_encryption_set_id", GoValue.str des),
        ("name", GoValue.str nm),
        ("storage_account_type", GoValue.str sat),
        ("write_accelerator_enabled", GoValue.bool wae)]] := by
  have h32 : toInt32 dsz = dsz := toInt32_eq_self dsz (by omega) (by omega)
  rcases ddisk with _ | dd <;> by_cases hdes : des = "" <;>
    by_cases hnm : nm = "" <;> rcases h0.lt_or_eq with hpos | rfl <;>
    simp [FlattenVirtualMachineOSDisk, hdes, hnm, h32] <;>
    simp [hpos, hpos.ne']

end AzureVM

namespace AzureVM

/-! ### Claims about the OS-disk mapping pair -/

/-- C1 (counterexample): a single-element bag whose values are all well-typed
but whose `disk_size_gb` is the (schema-invalid) integer `-1` does not round
trip: the set value `-1` comes back as `0`, which is neither the original
value nor the filling of an unset optional. -/
theorem osdisk_roundtrip_welltyped_counterexample :
    flatLookup
      (FlattenVirtualMachineOSDisk (ExpandVirtualMachineOSDisk
        [GoValue.map [("caching", GoValue.str "None"),
          ("storage_account_type", GoValue.str "Standard_LRS"),
          ("write_accelerator_enabled", GoValue.bool false),
          ("disk_size_gb", GoValue.int (-1)),
          ("diff_disk_settings", GoValue.list []),
          ("disk_encryption_set_id", GoValue.str ""),
          ("name", GoValue.str "")]] "Linux"))
      "disk_size_gb" = some (GoValue.int 0) ∧
    List.lookup "disk_size_gb"
      [("caching", GoValue.str "None"),
        ("storage_account_type", GoValue.str "Standard_LRS"),
        ("write_accelerator_enabled", GoValue.bool false),
        ("disk_size_gb", GoValue.int (-1)),
        ("diff_disk_settings", GoValue.list []),
        ("disk_encryption_set_id", GoValue.str ""),
        ("name", GoValue.str "")] = some (GoValue.int (-1)) ∧
    GoValue.int 0 ≠ GoValue.int (-1) := by
  refine ⟨rfl, rfl, ?_⟩
  intro h
  simp at h

/-- C1 (amended): for every schema-valid single-element configuration bag —
well-typed values, `disk_size_gb` in the validated range `0..1023`, and
`diff_disk_settings` of at most one element of the schema's shape —
`FlattenVirtualMachineOSDisk (ExpandVirtualMachineOSDisk bag osType)`
reproduces the original field values, unset optionals coming back as their
default/zero values. -/
theorem osdisk_expand_flatten_roundtrip (m : List (String × GoValue))
    (osType c sat des nm o : String) (dsz : Int) (wae : Bool)
    (dds : List GoValue)
    (hc : m.lookup "caching" = some (GoValue.str c))
    (hs : m.lookup "storage_account_type" = some (GoValue.str sat))
    (hw : m.lookup "write_accelerator_enabled" = some (GoValue.bool wae))
    (hd : m.lookup "disk_size_gb" = some (GoValue.int dsz))
    (hl : m.lookup "diff_disk_settings" = some (GoValue.list dds))
    (he : m.lookup "disk_encryption_set_id" = some (GoValue.str des))
    (hn : m.lookup "name" = some (GoValue.str nm))
    (hdds : dds = [] ∨ dds = [GoValue.map [("option", GoValue.str o)]])
    (h0 : 0 ≤ dsz) (h1 : dsz ≤ 1023) :
    FlattenVirtualMachineOSDisk
        (ExpandVirtualMachineOSDisk [GoValue.map m] osType) =
      [GoValue.map [
        ("caching", GoValue.str c),
        ("disk_size_gb", GoValue.int dsz),
        ("diff_disk_settings", GoValue.list dds),
        ("disk_encryption_set_id", GoValue.str des),
        ("name", GoValue.str nm),
        ("storage_account_type", GoValue.str sat),
        ("write_accelerator_enabled", GoValue.bool wae)]] := by
  rcases hdds with rfl | rfl
  · rw [expand_osdisk_eq m osType c sat des nm dsz wae [] none
      hc hs hw hd hl he hn (Or.inl ⟨rfl, rfl⟩)]
    rw [flatten_expanded_osdisk c sat des nm osType dsz wae none h0 h1]
  · rw [expand_osdisk_eq m osType c sat des nm dsz wae _ (some { Option := o })
      hc hs hw hd hl he hn
      (Or.inr ⟨[("option", GoValue.str o)], [], o, rfl, rfl, rfl⟩)]
    rw [flatten_expanded_osdisk c sat des nm osType dsz wae
      (some { Option := o }) h0 h1]

/-- C1 (witness): the amended round trip evaluated on a concrete bag. -/
theorem osdisk_expand_flatten_roundtrip_witness :
    FlattenVirtualMachineOSDisk (ExpandVirtualMachineOSDisk
      [GoValue.map [("caching", GoValue.str "ReadWrite"),
        ("storage_account_type", GoValue.str "Premium_LRS"),
        ("write_accelerator_enabled", GoValue.bool true),
        ("disk_size_gb", GoValue.int 30),
        ("diff_disk_settings", GoValue.list
          [GoValue.map [("option", GoValue.str "Local")]]),
        ("disk_encryption_set_id", GoValue.str "encset"),
        ("name", GoValue.str "osdisk1")]] "Linux") =
      [GoValue.map [
        ("caching", GoValue.str "ReadWrite"),
        ("disk_size_gb", GoValue.int 30),
        ("diff_disk_settings", GoValue.list
          [GoValue.map [("option", GoValue.str "Local")]]),
        ("disk_encryption_set_id", GoValue.str "encset"),
        ("name", GoValue.str "osdisk1"),
        ("storage_account_type", GoValue.str "Premium_LRS"),
        ("write_accelerator_enabled", GoValue.bool true)]] :=
  osdisk_expand_flatten_roundtrip _ "Linux" "ReadWrite" "Premium_LRS"
    "encset" "osdisk1" "Local" 30 true _
    rfl rfl rfl rfl rfl rfl rfl (Or.inr rfl) (by norm_num) (by norm_num)

end AzureVM

namespace AzureVM

/-- C2 (counterexample): on the nil `OSDisk` pointer,
`FlattenVirtualMachineOSDisk` returns the empty list, not a single-element
list. -/
theorem flatten_nil_osdisk_empty :
    FlattenVirtualMachineOSDisk none = [] ∧
    (FlattenVirtualMachineOSDisk none).length ≠ 1 := by
  exact ⟨rfl, by decide⟩

/-- C2 (amended): for every non-nil `OSDisk` pointer,
`FlattenVirtualMachineOSDisk` returns a list of exactly one element,
substituting zero values for absent pointer fields; for the nil pointer it
returns the empty list. -/
theorem flatten_osdisk_singleton (d : OSDisk) :
    (FlattenVirtualMachineOSDisk (some d)).length = 1 ∧
    (d.Name = none →
      flatLookup (FlattenVirtualMachineOSDisk (some d)) "name" =
        some (GoValue.str "")) ∧
    (d.DiskSizeGB = none →
      flatLookup (FlattenVirtualMachineOSDisk (some d)) "disk_size_gb" =
        some (GoValue.int 0)) ∧
    (d.WriteAcceleratorEnabled = none →
      flatLookup (FlattenVirtualMachineOSDisk (some d))
        "write_accelerator_enabled" = some (GoValue.bool false)) ∧
    (d.ManagedDisk = none →
      flatLookup (FlattenVirtualMachineOSDisk (some d))
          "storage_account_type" = some (GoValue.str "") ∧
      flatLookup (FlattenVirtualMachineOSDisk (some d))
          "disk_encryption_set_id" = some (GoValue.str "")) := by
  obtain ⟨C, M, W, CO, OT, DS, DD, N⟩ := d
  refine ⟨rfl, ?_, ?_, ?_, ?_⟩
  · rintro rfl; rfl
  · rintro rfl; rfl
  · rintro rfl; rfl
  · rintro rfl; exact ⟨rfl, rfl⟩

/-- C2 (witness): the amended statement evaluated on the all-absent disk. -/
theorem flatten_osdisk_singleton_witness :
    (FlattenVirtualMachineOSDisk
      (some
        { Caching := "", ManagedDisk := none, WriteAcceleratorEnabled := none,
          CreateOption := "", OsType := "", DiskSizeGB := none,
          DiffDiskSettings := none, Name := none })).length = 1 ∧
    flatLookup (FlattenVirtualMachineOSDisk
      (some
        { Caching := "", ManagedDisk := none, WriteAcceleratorEnabled := none,
          CreateOption := "", OsType := "", DiskSizeGB := none,
          DiffDiskSettings := none, Name := none }))
      "name" = some (GoValue.str "") := by
  have h := flatten_osdisk_singleton
    { Caching := "", ManagedDisk := none, WriteAcceleratorEnabled := none,
      CreateOption := "", OsType := "", DiskSizeGB := none,
      DiffDiskSettings := none, Name := none }
  exact ⟨h.1, h.2.1 rfl⟩

/-- C3: a well-typed bag whose `disk_size_gb` is `0` expands to a payload
with `DiskSizeGB` unset, and flattening any payload whose `DiskSizeGB` is
unset yields `disk_size_gb = 0`. -/
theorem disk_size_gb_zero_unset (m : List (String × GoValue))
    (osType c sat des nm : String) (wae : Bool) (dds : List GoValue)
    (hc : m.lookup "caching" = some (GoValue.str c))
    (hs : m.lookup "storage_account_type" = some (GoValue.str sat))
    (hw : m.lookup "write_accelerator_enabled" = some (GoValue.bool wae))
    (hd : m.lookup "disk_size_gb" = some (GoValue.int 0))
    (hl : m.lookup "diff_disk_settings" = some (GoValue.list dds))
    (he : m.lookup "disk_encryption_set_id" = some (GoValue.str des))
    (hn : m.lookup "name" = some (GoValue.str nm))
    (hdds : dds = [] ∨ ∃ dm rest o, dds = GoValue.map dm :: rest ∧
      dm.lookup "option" = some (GoValue.str o)) :
    (∃ d, ExpandVirtualMachineOSDisk [GoValue.map m] osType = some d ∧
      d.DiskSizeGB = none) ∧
    ∀ d : OSDisk, d.DiskSizeGB = none →
      flatLookup (FlattenVirtualMachineOSDisk (some d)) "disk_size_gb" =
        some (GoValue.int 0) := by
  constructor
  · rcases hdds with rfl | ⟨dm, rest, o, rfl, hdm⟩
    · exact ⟨_, expand_osdisk_eq m osType c sat des nm 0 wae [] none
        hc hs hw hd hl he hn (Or.inl ⟨rfl, rfl⟩), rfl⟩
    · exact ⟨_, expand_osdisk_eq m osType c sat des nm 0 wae _
        (some { Option := o }) hc hs hw hd hl he hn
        (Or.inr ⟨dm, rest, o, rfl, hdm, rfl⟩), rfl⟩
  · intro d hds
    obtain ⟨C, M, W, CO, OT, DS, DD, N⟩ := d
    cases hds
    rfl

/-- C3 (witness): evaluated on a concrete bag with `disk_size_gb = 0`. -/
theorem disk_size_gb_zero_unset_witness :
    (∃ d, ExpandVirtualMachineOSDisk
        [GoValue.map [("caching", GoValue.str "None"),
          ("storage_account_type", GoValue.str "Standard_LRS"),
          ("write_accelerator_enabled", GoValue.bool false),
          ("disk_size_gb", GoValue.int 0),
          ("diff_disk_settings", GoValue.list []),
          ("disk_encryption_set_id", GoValue.str ""),
          ("name", GoValue.str "")]] "Linux" = some d ∧
      d.DiskSizeGB = none) ∧
    ∀ d : OSDisk, d.DiskSizeGB = none →
      flatLookup (FlattenVirtualMachineOSDisk (some d)) "disk_size_gb" =
        some (GoValue.int 0) :=
  disk_size_gb_zero_unset _ "Linux" "None" "Standard_LRS" "" "" false []
    rfl rfl rfl rfl rfl rfl rfl (Or.inl rfl)

end AzureVM

namespace AzureVM

/-- C6: with the other fields well-typed, a non-empty (well-typed)
`diff_disk_settings` list expands to a non-nil `DiffDiskSettings` carrying
the given option and flattens back to a single-element list; an empty list
expands to nil and flattens back to the empty list. -/
theorem diff_disk_settings_expand_flatten (m : List (String × GoValue))
    (osType c sat des nm : String) (dsz : Int) (wae : Bool)
    (hc : m.lookup "caching" = some (GoValue.str c))
    (hs : m.lookup "storage_account_type" = some (GoValue.str sat))
    (hw : m.lookup "write_accelerator_enabled" = some (GoValue.bool wae))
    (hd : m.lookup "disk_size_gb" = some (GoValue.int dsz))
    (he : m.lookup "disk_encryption_set_id" = some (GoValue.str des))
    (hn : m.lookup "name" = some (GoValue.str nm)) :
    (∀ (dm : List (String × GoValue)) (rest : List GoValue) (o : String),
      m.lookup "diff_disk_settings" =
          some (GoValue.list (GoValue.map dm :: rest)) →
      dm.lookup "option" = some (GoValue.str o) →
      ∃ d, ExpandVirtualMachineOSDisk [GoValue.map m] osType = some d ∧
        d.DiffDiskSettings = some { Option := o } ∧
        flatLookup
          (FlattenVirtualMachineOSDisk
            (ExpandVirtualMachineOSDisk [GoValue.map m] osType))
          "diff_disk_settings" =
          some (GoValue.list [GoValue.map [("option", GoValue.str o)]])) ∧
    (m.lookup "diff_disk_settings" = some (GoValue.list []) →
      ∃ d, ExpandVirtualMachineOSDisk [GoValue.map m] osType = some d ∧
        d.DiffDiskSettings = none ∧
        flatLookup
          (FlattenVirtualMachineOSDisk
            (ExpandVirtualMachineOSDisk [GoValue.map m] osType))
          "diff_disk_settings" = some (GoValue.list [])) := by
  constructor
  · intro dm rest o hl hdm
    rw [expand_osdisk_eq m osType c sat des nm dsz wae _
      (some { Option := o }) hc hs hw hd hl he hn
      (Or.inr ⟨dm, rest, o, rfl, hdm, rfl⟩)]
    exact ⟨_, rfl, rfl, rfl⟩
  · intro hl
    rw [expand_osdisk_eq m osType c sat des nm dsz wae [] none
      hc hs hw hd hl he hn (Or.inl ⟨rfl, rfl⟩)]
    exact ⟨_, rfl, rfl, rfl⟩

/-- C6 (witness): evaluated on a concrete bag with one diff-disk element. -/
theorem diff_disk_settings_expand_flatten_witness :
    ∃ d, ExpandVirtualMachineOSDisk
        [GoValue.map [("caching", GoValue.str "None"),
          ("storage_account_type", GoValue.str "Standard_LRS"),
          ("write_accelerator_enabled", GoValue.bool false),
          ("disk_size_gb", GoValue.int 10),
          ("diff_disk_settings", GoValue.list
            [GoValue.map [("option", GoValue.str "Local")]]),
          ("disk_encryption_set_id", GoValue.str ""),
          ("name", GoValue.str "")]] "Linux" = some d ∧
      d.DiffDiskSettings = some { Option := "Local" } ∧
      flatLookup
        (FlattenVirtualMachineOSDisk
          (ExpandVirtualMachineOSDisk
            [GoValue.map [("caching", GoValue.str "None"),
              ("storage_account_type", GoValue.str "Standard_LRS"),
              ("write_accelerator_enabled", GoValue.bool false),
              ("disk_size_gb", GoValue.int 10),
              ("diff_disk_settings", GoValue.list
                [GoValue.map [("option", GoValue.str "Local")]]),
              ("disk_encryption_set_id", GoValue.str ""),
              ("name", GoValue.str "")]] "Linux"))
        "diff_disk_settings" =
        some (GoValue.list [GoValue.map [("option", GoValue.str "Local")]]) :=
  (diff_disk_settings_expand_flatten
    [("caching", GoValue.str "None"),
      ("storage_account_type", GoValue.str "Standard_LRS"),
      ("write_accelerator_enabled", GoValue.bool false),
      ("disk_size_gb", GoValue.int 10),
      ("diff_disk_settings", GoValue.list
        [GoValue.map [("option", GoValue.str "Local")]]),
      ("disk_encryption_set_id", GoValue.str ""),
      ("name", GoValue.str "")]
    "Linux" "None" "Standard_LRS" "" ""
    10 false rfl rfl rfl rfl rfl rfl).1
    [("option", GoValue.str "Local")] [] "Local" rfl rfl

/-- C7: flattening a non-nil payload yields `write_accelerator_enabled`
equal to the pointed-to boolean, and `false` when the pointer is nil. -/
theorem write_accelerator_default_false (d : OSDisk) :
    flatLookup (FlattenVirtualMachineOSDisk (some d))
        "write_accelerator_enabled" =
      some (GoValue.bool (match d.WriteAcceleratorEnabled with
        | some b => b
        | none => false)) := by
  obtain ⟨C, M, W, CO, OT, DS, DD, N⟩ := d
  rcases W with _ | b <;> rfl

/-- C9 (counterexample): `ExpandVirtualMachineOSDisk` is not total on every
input of its declared type: on the empty input list it panics (the Go
`input[0]` indexes out of range), embedded here as `none`. -/
theorem expand_osdisk_empty_input_panics :
    ExpandVirtualMachineOSDisk [] "Linux" = none := rfl

/-- C9 (amended): `ExpandVirtualMachineOSDisk` terminates normally on every
well-formed input — a non-empty list whose first element is a map with
well-typed values for the seven schema keys, the `diff_disk_settings`
elements well-typed too; on an empty input list or an entry of unexpected
dynamic type it panics. -/
theorem expand_osdisk_total_wellformed (m : List (String × GoValue))
    (osType c sat des nm : String) (dsz : Int) (wae : Bool)
    (dds : List GoValue)
    (hc : m.lookup "caching" = some (GoValue.str c))
    (hs : m.lookup "storage_account_type" = some (GoValue.str sat))
    (hw : m.lookup "write_accelerator_enabled" = some (GoValue.bool wae))
    (hd : m.lookup "disk_size_gb" = some (GoValue.int dsz))
    (hl : m.lookup "diff_disk_settings" = some (GoValue.list dds))
    (he : m.lookup "disk_encryption_set_id" = some (GoValue.str des))
    (hn : m.lookup "name" = some (GoValue.str nm))
    (hdds : dds = [] ∨ ∃ dm rest o, dds = GoValue.map dm :: rest ∧
      dm.lookup "option" = some (GoValue.str o)) :
    ∃ d, ExpandVirtualMachineOSDisk [GoValue.map m] osType = some d := by
  rcases hdds with rfl | ⟨dm, rest, o, rfl, hdm⟩
  · exact ⟨_, expand_osdisk_eq m osType c sat des nm dsz wae [] none
      hc hs hw hd hl he hn (Or.inl ⟨rfl, rfl⟩)⟩
  · exact ⟨_, expand_osdisk_eq m osType c sat des nm dsz wae _
      (some { Option := o }) hc hs hw hd hl he hn
      (Or.inr ⟨dm, rest, o, rfl, hdm, rfl⟩)⟩

/-- C9 (witness): the amended statement evaluated on a concrete bag. -/
theorem expand_osdisk_total_wellformed_witness :
    ∃ d, ExpandVirtualMachineOSDisk
      [GoValue.map [("caching", GoValue.str "ReadOnly"),
        ("storage_account_type", GoValue.str "StandardSSD_LRS"),
        ("write_accelerator_enabled", GoValue.bool false),
        ("disk_size_gb", GoValue.int 0),
        ("diff_disk_settings", GoValue.list []),
        ("disk_encryption_set_id", GoValue.str ""),
        ("name", GoValue.str "d1")]] "Windows" = some d :=
  expand_osdisk_total_wellformed _ "Windows" "ReadOnly" "StandardSSD_LRS"
    "" "d1" 0 false [] rfl rfl rfl rfl rfl rfl rfl (Or.inl rfl)

end AzureVM

namespace AzureVM

/-! ### Claims about identifier parsing and validation -/

/-- Every key produced by `pairUp` is one of the input segments. -/
theorem pairUp_keys_mem : ∀ (l : List String) (ps : List (String × String)),
    pairUp l = some ps → ∀ p ∈ ps, p.1 ∈ l
  | [], ps, h => by
    simp only [pairUp, Option.some.injEq] at h
    subst h
    intro p hp
    simp at hp
  | [a], ps, h => by simp [pairUp] at h
  | k :: v :: rest, ps, h => by
    simp only [pairUp, Option.map_eq_some'] at h
    obtain ⟨ps', h1, rfl⟩ := h
    intro p hp
    rcases List.mem_cons.mp hp with rfl | hp
    · exact List.mem_cons_self _ _
    · exact List.mem_cons_of_mem _
        (List.mem_cons_of_mem _ (pairUp_keys_mem rest ps' h1 p hp))

/-- A lookup on an association list none of whose keys is `k` misses. -/
theorem lookup_none_of_keys_ne {β : Type} (k : String) :
    ∀ ps : List (String × β), (∀ p ∈ ps, p.1 ≠ k) → ps.lookup k = none
  | [], _ => rfl
  | (a, b) :: rest, h => by
    have ha : a ≠ k := h (a, b) (List.mem_cons_self _ _)
    have hb : (k == a) = false := by
      simp only [beq_eq_false_iff_ne, ne_eq]
      exact fun hk => ha hk.symm
    simp only [List.lookup, hb]
    exact lookup_none_of_keys_ne k rest
      (fun p hp => h p (List.mem_cons_of_mem _ hp))

/-- C4: an identifier path with no `virtualMachines` segment fails
`ParseVirtualMachineID` with an error (and hence yields no value). -/
theorem parse_vm_id_missing_segment_errors (input : String)
    (h : "virtualMachines" ∉ pathSegments input) :
    ∃ e, ParseVirtualMachineID input = Except.error e := by
  rcases hq : pairUp (pathSegments input) with _ | pairs
  · have hfin : ParseVirtualMachineID input = Except.error
        ("[ERROR] Unable to parse Virtual Machine ID " ++ input ++ ": " ++
          ("malformed resource id path " ++ input)) := by
      simp only [ParseVirtualMachineID, ParseAzureResourceID, hq]
    exact ⟨_, hfin⟩
  · have hpa : ParseAzureResourceID input = Except.ok
        { ResourceGroup := (pairs.lookup "resourceGroups").getD ""
          Path := pairs } := by
      simp only [ParseAzureResourceID, hq]
    have hnone : pairs.lookup "virtualMachines" = none :=
      lookup_none_of_keys_ne _ pairs
        (fun p hp heq => h (heq ▸ pairUp_keys_mem _ _ hq p hp))
    have hfin : ParseVirtualMachineID input = Except.error
        ("missing segment " ++ "virtualMachines") := by
      simp only [ParseVirtualMachineID, hpa, PopSegment, hnone]
    exact ⟨_, hfin⟩

/-- C4 (witness): a concrete resource-group-only path fails to parse. -/
theorem parse_vm_id_missing_segment_errors_witness :
    ∃ e, ParseVirtualMachineID
      "/subscriptions/123/resourceGroups/rg1" = Except.error e :=
  parse_vm_id_missing_segment_errors
    "/subscriptions/123/resourceGroups/rg1" (by decide)

/-- C5: an identifier path containing an empty segment fails
`ParseVirtualMachineID` with an error, so no successfully parsed
`VirtualMachineID` comes from such a path. -/
theorem parse_vm_id_empty_segment_errors (input : String)
    (h : "" ∈ pathSegments input) :
    ∃ e, ParseVirtualMachineID input = Except.error e := by
  have hv : ValidateNoEmptySegments input =
      Except.error ("empty segment in " ++ input) := by
    unfold ValidateNoEmptySegments
    rw [if_pos h]
  rcases hq : ParseAzureResourceID input with e | id
  · have hfin : ParseVirtualMachineID input = Except.error
        ("[ERROR] Unable to parse Virtual Machine ID " ++ input ++ ": " ++ e) := by
      simp only [ParseVirtualMachineID, hq]
    exact ⟨_, hfin⟩
  · rcases hp : PopSegment id "virtualMachines" with e | name
    · have hfin : ParseVirtualMachineID input = Except.error e := by
        simp only [ParseVirtualMachineID, hq, hp]
      exact ⟨_, hfin⟩
    · have hfin : ParseVirtualMachineID input = Except.error
          ("empty segment in " ++ input) := by
        simp only [ParseVirtualMachineID, hq, hp, hv]
      exact ⟨_, hfin⟩

/-- C5 (witness): a concrete path with a doubled slash fails to parse. -/
theorem parse_vm_id_empty_segment_errors_witness :
    ∃ e, ParseVirtualMachineID
      "/subscriptions/123//resourceGroups/rg1/providers/c/virtualMachines/v1" =
      Except.error e :=
  parse_vm_id_empty_segment_errors
    "/subscriptions/123//resourceGroups/rg1/providers/c/virtualMachines/v1"
    (by decide)

/-- C8: `ValidateVirtualMachineID` always returns a (warnings, errors) pair
with no warnings, and the errors list is empty exactly when the input is a
string that `ParseVirtualMachineID` accepts. -/
theorem validate_vm_id_warnings_errors (i : GoValue) (k : String) :
    (ValidateVirtualMachineID i k).1 = [] ∧
    ((ValidateVirtualMachineID i k).2 = [] ↔
      ∃ s vm, i = GoValue.str s ∧
        ParseVirtualMachineID s = Except.ok vm) := by
  cases i with
  | str v =>
    rcases hp : ParseVirtualMachineID v with e | vm <;>
      simp [ValidateVirtualMachineID, hp]
  | int n => simp [ValidateVirtualMachineID]
  | bool b => simp [ValidateVirtualMachineID]
  | list l => simp [ValidateVirtualMachineID]
  | map m => simp [ValidateVirtualMachineID]

end AzureVM

namespace AzureVM

/-! ### Claim about the network-interface ID mapping pair -/

/-- C10: flattening the expansion of a list of ID strings gives the list
back; flattening the nil slice pointer gives the empty list; and a reference
with a nil `ID` pointer is dropped by the flatten. -/
theorem nic_ids_expand_flatten_roundtrip :
    (∀ ss : List String,
      expandVirtualMachineNetworkInterfaceIDs (ss.map GoValue.str) =
        some (ss.map fun s => { ID := some s }) ∧
      flattenVirtualMachineNetworkInterfaceIDs
          (some (ss.map fun s => ({ ID := some s } :
            NetworkInterfaceReference))) =
        ss.map GoValue.str) ∧
    flattenVirtualMachineNetworkInterfaceIDs none = [] ∧
    (∀ (l₁ l₂ : List NetworkInterfaceReference)
        (r : NetworkInterfaceReference), r.ID = none →
      flattenVirtualMachineNetworkInterfaceIDs (some (l₁ ++ r :: l₂)) =
        flattenVirtualMachineNetworkInterfaceIDs (some (l₁ ++ l₂))) := by
  refine ⟨?_, rfl, ?_⟩
  · intro ss
    constructor
    · induction ss with
      | nil => rfl
      | cons s ss ih =>
        simp [expandVirtualMachineNetworkInterfaceIDs, asString, ih]
    · induction ss with
      | nil => rfl
      | cons s ss ih =>
        simp only [flattenVirtualMachineNetworkInterfaceIDs, List.map_cons,
          List.filterMap_cons, Option.map_some'] at ih ⊢
        simp [ih]
  · intro l₁ l₂ r hr
    induction l₁ with
    | nil =>
      simp [flattenVirtualMachineNetworkInterfaceIDs, List.filterMap_cons, hr]
    | cons a l ih =>
      rcases ha : a.ID with _ | i <;>
        simp_all [flattenVirtualMachineNetworkInterfaceIDs,
          List.filterMap_cons]

/-- C10 (witness): dropping a nil-`ID` reference, evaluated concretely. -/
theorem nic_ids_expand_flatten_roundtrip_witness :
    flattenVirtualMachineNetworkInterfaceIDs
        (some ([({ ID := some "nic1" } : NetworkInterfaceReference)] ++
          ({ ID := none } : NetworkInterfaceReference) :: [])) =
      flattenVirtualMachineNetworkInterfaceIDs
        (some ([({ ID := some "nic1" } : NetworkInterfaceReference)] ++ [])) :=
  nic_ids_expand_flatten_roundtrip.2.2 [{ ID := some "nic1" }] []
    { ID := none } rfl

end AzureVM
